import Mathlib

/-!
Verification development for the ntuity-collector metrics exporter
(cmd/ntuity-collector/main.go).

The program is shallowly embedded: Go structs become Lean structures,
the HTTP layer is an explicit input value (`HttpVal`), the JSON decoding
of `encoding/json` is modelled at the level of parsed JSON values plus a
character-level JSON parser, and the publisher loop becomes an explicit
step function producing an event trace and a new gauge state.

Floating point values (`float64`) are represented by Lean `Float`; the
program never computes with them — it only copies them from the decoded
snapshot into gauges — so no floating-point arithmetic is modelled.
-/

set_option maxHeartbeats 1000000

namespace NtuityCollector

/-! ## Data model (main.go lines 24-52)

`MetricValue` mirrors the Go struct: a nullable float64 (`Value *float64`)
and a timestamp.  `time.Time` is modelled as the raw RFC3339 text it was
decoded from; its internal format validation is not modelled (no claim
depends on it). -/

structure MetricValue where
  value : Option Float
  time : String
  deriving Inhabited

/-- `EnergyFlow` mirrors the Go struct field for field, including the
`GirdsTotalCount` spelling from the source. -/
structure EnergyFlow where
  powerConsumption : MetricValue
  powerConsumptionCalc : MetricValue
  powerProduction : MetricValue
  powerStorage : MetricValue
  powerGrid : MetricValue
  powerChargingstations : MetricValue
  powerHeating : MetricValue
  powerAppliances : MetricValue
  stateOfCharge : MetricValue
  selfSufficiency : MetricValue
  consumersTotalCount : Int
  consumersOnlineCount : Int
  producersTotalCount : Int
  producersOnlineCount : Int
  storagesTotalCount : Int
  storagesOnlineCount : Int
  heatingTotalCount : Int
  heatingsOnlineCount : Int
  chargingPointsTotalCount : Int
  chargingPointsOnlineCount : Int
  girdsTotalCount : Int
  gridsOnlineCount : Int
  deriving Inhabited

/-- The ten metric-valued fields of `EnergyFlow`, doubling as the names of
the ten registered gauges (main.go lines 86-186 register one gauge per
metric, `power_consumption` included). -/
inductive Metric where
  | power_consumption
  | power_consumption_calc
  | power_production
  | power_storage
  | power_grid
  | power_charging_stations
  | power_heating
  | power_appliances
  | state_of_charge
  | self_sufficiency
  deriving DecidableEq, Inhabited

/-- The twelve integer counter fields of `EnergyFlow`. -/
inductive CounterField where
  | consumers_total
  | consumers_online
  | producers_total
  | producers_online
  | storages_total
  | storages_online
  | heatings_total
  | heatings_online
  | charging_points_total
  | charging_points_online
  | grids_total
  | grids_online
  deriving DecidableEq, Inhabited

def getMetricField : Metric → EnergyFlow → MetricValue
  | .power_consumption, f => f.powerConsumption
  | .power_consumption_calc, f => f.powerConsumptionCalc
  | .power_production, f => f.powerProduction
  | .power_storage, f => f.powerStorage
  | .power_grid, f => f.powerGrid
  | .power_charging_stations, f => f.powerChargingstations
  | .power_heating, f => f.powerHeating
  | .power_appliances, f => f.powerAppliances
  | .state_of_charge, f => f.stateOfCharge
  | .self_sufficiency, f => f.selfSufficiency

def setMetricField (f : EnergyFlow) : Metric → MetricValue → EnergyFlow
  | .power_consumption, mv => { f with powerConsumption := mv }
  | .power_consumption_calc, mv => { f with powerConsumptionCalc := mv }
  | .power_production, mv => { f with powerProduction := mv }
  | .power_storage, mv => { f with powerStorage := mv }
  | .power_grid, mv => { f with powerGrid := mv }
  | .power_charging_stations, mv => { f with powerChargingstations := mv }
  | .power_heating, mv => { f with powerHeating := mv }
  | .power_appliances, mv => { f with powerAppliances := mv }
  | .state_of_charge, mv => { f with stateOfCharge := mv }
  | .self_sufficiency, mv => { f with selfSufficiency := mv }

def getCounterField : CounterField → EnergyFlow → Int
  | .consumers_total, f => f.consumersTotalCount
  | .consumers_online, f => f.consumersOnlineCount
  | .producers_total, f => f.producersTotalCount
  | .producers_online, f => f.producersOnlineCount
  | .storages_total, f => f.storagesTotalCount
  | .storages_online, f => f.storagesOnlineCount
  | .heatings_total, f => f.heatingTotalCount
  | .heatings_online, f => f.heatingsOnlineCount
  | .charging_points_total, f => f.chargingPointsTotalCount
  | .charging_points_online, f => f.chargingPointsOnlineCount
  | .grids_total, f => f.girdsTotalCount
  | .grids_online, f => f.gridsOnlineCount

def setCounterField (f : EnergyFlow) : CounterField → Int → EnergyFlow
  | .consumers_total, n => { f with consumersTotalCount := n }
  | .consumers_online, n => { f with consumersOnlineCount := n }
  | .producers_total, n => { f with producersTotalCount := n }
  | .producers_online, n => { f with producersOnlineCount := n }
  | .storages_total, n => { f with storagesTotalCount := n }
  | .storages_online, n => { f with storagesOnlineCount := n }
  | .heatings_total, n => { f with heatingTotalCount := n }
  | .heatings_online, n => { f with heatingsOnlineCount := n }
  | .charging_points_total, n => { f with chargingPointsTotalCount := n }
  | .charging_points_online, n => { f with chargingPointsOnlineCount := n }
  | .grids_total, n => { f with girdsTotalCount := n }
  | .grids_online, n => { f with gridsOnlineCount := n }

/-- Which gauges the publisher loop actually sets (main.go lines 196-240):
all of them except `power_consumption`, which is registered but never
written. -/
def published : Metric → Bool
  | .power_consumption => false
  | _ => true

/-! ## Gauge registry model

A `prometheus.GaugeVec` only has a child time series for a label value
once `WithLabelValues` has been called with it; `NewGaugeVec` plus
`MustRegister` alone create no series.  The registry is therefore a list
of existing children `(gauge name, label value, current value)`;
`gset` models `WithLabelValues(label).Set(v)` (create-or-update) and
`lookupGauge` reads a child if it exists. -/

abbrev GaugeSet := List (Metric × String × Float)

/-- The registry right after `MustRegister` (main.go lines 176-186):
ten gauge vectors, no children yet. -/
def initialGaugeSet : GaugeSet := []

/-- `vec.WithLabelValues(label).Set(v)`: replace the existing child for
`(n, label)` or create it. -/
def gset : GaugeSet → Metric → String → Float → GaugeSet
  | [], n, s, v => [(n, s, v)]
  | (n0, s0, v0) :: rest, n, s, v =>
    if n0 = n ∧ s0 = s then (n, s, v) :: rest
    else (n0, s0, v0) :: gset rest n s v

def lookupGauge : GaugeSet → Metric → String → Option Float
  | [], _, _ => none
  | (n0, s0, v0) :: rest, n, s =>
    if n0 = n ∧ s0 = s then some v0 else lookupGauge rest n s

/-- The `/metrics` exposition (main.go line 259, promhttp): one series per
existing child; a registered vector with no children exports nothing. -/
def scrapeSeries (g : GaugeSet) : List (Metric × String × Float) := g

/-! ## Publisher cycle (main.go lines 188-244) -/

/-- `if flow.X.Value != nil { Set(*flow.X.Value) } else { Set(0) }`. -/
def orZero : Option Float → Float
  | some v => v
  | none => 0

/-- The nine `Set` calls of one successful cycle, in source order
(main.go lines 196-240). -/
def publishWrites (site : String) (flow : EnergyFlow) :
    List (Metric × String × Float) :=
  [ (.power_consumption_calc, site, orZero flow.powerConsumptionCalc.value),
    (.power_production, site, orZero flow.powerProduction.value),
    (.power_storage, site, orZero flow.powerStorage.value),
    (.power_grid, site, orZero flow.powerGrid.value),
    (.power_charging_stations, site, orZero flow.powerChargingstations.value),
    (.power_heating, site, orZero flow.powerHeating.value),
    (.power_appliances, site, orZero flow.powerAppliances.value),
    (.state_of_charge, site, orZero flow.stateOfCharge.value),
    (.self_sufficiency, site, orZero flow.selfSufficiency.value) ]

def applyWrites (g : GaugeSet) (ws : List (Metric × String × Float)) : GaugeSet :=
  ws.foldl (fun acc w => gset acc w.1 w.2.1 w.2.2) g

/-- Gauge state after one successful cycle publishing `flow`. -/
def publishCycle (g : GaugeSet) (site : String) (flow : EnergyFlow) : GaugeSet :=
  applyWrites g (publishWrites site flow)

/-! ## JSON values and parser

`json.Unmarshal` (main.go line 71) is modelled in two stages: a
character-level parser from the response body to a JSON value, then the
decoding of that value into `EnergyFlow` following the documented
`encoding/json` semantics.  A number remembers its mantissa `m`,
decimal exponent `e` (the value is `m * 10 ^ e`) and whether its literal
was a plain integer literal (no fraction, no exponent), since decoding
into a Go `int` accepts only plain integer literals. -/

inductive Json where
  | null
  | bool (b : Bool)
  | num (m : Int) (e : Int) (intLit : Bool)
  | str (s : String)
  | arr (elems : List Json)
  | obj (fields : List (String × Json))

def skipWs : List Char → List Char
  | c :: rest =>
    if c = ' ' ∨ c = '\t' ∨ c = '\n' ∨ c = '\r' then skipWs rest else c :: rest
  | [] => []

def takeDigits : List Char → List Char × List Char
  | c :: rest =>
    if c.isDigit then
      let p := takeDigits rest
      (c :: p.1, p.2)
    else ([], c :: rest)
  | [] => ([], [])

def digitsToNat (ds : List Char) : Nat :=
  ds.foldl (fun a c => a * 10 + (c.toNat - 48)) 0

/-- Fractional part `.digits` of a JSON number, if present. -/
def parseFracPart : List Char → Option (Bool × List Char × List Char)
  | '.' :: rest =>
    match takeDigits rest with
    | ([], _) => none
    | (ds, r) => some (true, ds, r)
  | s => some (false, [], s)

/-- Exponent part `e[+-]digits` of a JSON number, if present. -/
def parseExpPart : List Char → Option (Bool × Int × List Char)
  | c :: rest =>
    if c = 'e' ∨ c = 'E' then
      let sr : Int × List Char :=
        match rest with
        | '+' :: r => (1, r)
        | '-' :: r => (-1, r)
        | r => (1, r)
      match takeDigits sr.2 with
      | ([], _) => none
      | (ds, r2) => some (true, sr.1 * (digitsToNat ds : Int), r2)
    else some (false, 0, c :: rest)
  | [] => some (false, 0, [])

def parseNumber (s0 : List Char) : Option (Json × List Char) :=
  let ns : Bool × List Char :=
    match s0 with
    | '-' :: r => (true, r)
    | s => (false, s)
  match takeDigits ns.2 with
  | ([], _) => none
  | (ds, r1) =>
    if ds.length > 1 ∧ ds.head? = some '0' then none
    else
      match parseFracPart r1 with
      | none => none
      | some (hasFrac, fds, r2) =>
        match parseExpPart r2 with
        | none => none
        | some (hasExp, ex, r3) =>
          let mNat : Nat := digitsToNat (ds ++ fds)
          let m : Int := if ns.1 then -(mNat : Int) else (mNat : Int)
          let e : Int := ex - (fds.length : Int)
          some (.num m e (!hasFrac && !hasExp), r3)

def hexVal (c : Char) : Option Nat :=
  if c.isDigit then some (c.toNat - 48)
  else if 'a' ≤ c ∧ c ≤ 'f' then some (c.toNat - 87)
  else if 'A' ≤ c ∧ c ≤ 'F' then some (c.toNat - 55)
  else none

/-- Characters of a JSON string after the opening quote, up to (and
consuming) the closing quote. Surrogate-pair recombination for `\u`
escapes is not modelled. -/
def parseStrChars : List Char → Option (List Char × List Char)
  | [] => none
  | '"' :: rest => some ([], rest)
  | '\\' :: c :: rest =>
    match c with
    | '"' => (parseStrChars rest).map (fun p => ('"' :: p.1, p.2))
    | '\\' => (parseStrChars rest).map (fun p => ('\\' :: p.1, p.2))
    | '/' => (parseStrChars rest).map (fun p => ('/' :: p.1, p.2))
    | 'b' => (parseStrChars rest).map (fun p => ('\x08' :: p.1, p.2))
    | 'f' => (parseStrChars rest).map (fun p => ('\x0c' :: p.1, p.2))
    | 'n' => (parseStrChars rest).map (fun p => ('\n' :: p.1, p.2))
    | 'r' => (parseStrChars rest).map (fun p => ('\r' :: p.1, p.2))
    | 't' => (parseStrChars rest).map (fun p => ('\t' :: p.1, p.2))
    | 'u' =>
      match rest with
      | h1 :: h2 :: h3 :: h4 :: r =>
        match hexVal h1, hexVal h2, hexVal h3, hexVal h4 with
        | some a, some b, some c3, some d =>
          (parseStrChars r).map
            (fun p => (Char.ofNat (((a * 16 + b) * 16 + c3) * 16 + d) :: p.1, p.2))
        | _, _, _, _ => none
      | _ => none
    | _ => none
  | c :: rest =>
    if c.toNat < 32 then none
    else (parseStrChars rest).map (fun p => (c :: p.1, p.2))

mutual

def parseVal : Nat → List Char → Option (Json × List Char)
  | 0, _ => none
  | fuel + 1, s =>
    match skipWs s with
    | 'n' :: 'u' :: 'l' :: 'l' :: r => some (.null, r)
    | 't' :: 'r' :: 'u' :: 'e' :: r => some (.bool true, r)
    | 'f' :: 'a' :: 'l' :: 's' :: 'e' :: r => some (.bool false, r)
    | '"' :: r => (parseStrChars r).map (fun p => (.str (String.mk p.1), p.2))
    | '[' :: r =>
      (match skipWs r with
      | ']' :: r2 => some (.arr [], r2)
      | r2 => (parseElems fuel r2).map (fun p => (.arr p.1, p.2)))
    | '\x7b' :: r =>
      (match skipWs r with
      | '\x7d' :: r2 => some (.obj [], r2)
      | r2 => (parseMembers fuel r2).map (fun p => (.obj p.1, p.2)))
    | s2 => parseNumber s2

def parseElems : Nat → List Char → Option (List Json × List Char)
  | 0, _ => none
  | fuel + 1, s =>
    match parseVal fuel s with
    | none => none
    | some (j, r) =>
      match skipWs r with
      | ',' :: r2 => (parseElems fuel r2).map (fun p => (j :: p.1, p.2))
      | ']' :: r2 => some ([j], r2)
      | _ => none

def parseMembers : Nat → List Char → Option (List (String × Json) × List Char)
  | 0, _ => none
  | fuel + 1, s =>
    match skipWs s with
    | '"' :: r =>
      (match parseStrChars r with
      | none => none
      | some (kcs, r1) =>
        match skipWs r1 with
        | ':' :: r2 =>
          (match parseVal fuel r2 with
          | none => none
          | some (j, r3) =>
            match skipWs r3 with
            | ',' :: r4 =>
              (parseMembers fuel r4).map (fun p => ((String.mk kcs, j) :: p.1, p.2))
            | '\x7d' :: r4 => some ([(String.mk kcs, j)], r4)
            | _ => none)
        | _ => none)
    | _ => none

end

/-- Parse a whole body; trailing non-whitespace after the top-level value
is an error, matching `json.Unmarshal`.  The fuel bound is generous: each
recursive descent consumes input. -/
def parseJson (s : String) : Option Json :=
  match parseVal (2 * s.length + 2) s.data with
  | some (j, r) =>
    (match skipWs r with
    | [] => some j
    | _ => none)
  | none => none

/-! ## Decoding a JSON value into `EnergyFlow`

Models `encoding/json` on the `EnergyFlow` struct: an object is decoded
key by key in input order; a key matching a field's json tag decodes the
value into that field (later duplicates overwrite); keys matching no tag
are ignored; JSON `null` into any target is a no-op; a type mismatch is
an error.  Tag matching follows `encoding/json`: an exact tag match is
preferred, failing that a key matches a tag ASCII-case-insensitively
(`foldKey`). -/

/-- ASCII case folding, as `encoding/json` uses for its case-insensitive
field match (all of this struct's tags are already lowercase). -/
def foldKey (s : String) : String :=
  String.mk (s.data.map Char.toLower)

def metricKey : Metric → String
  | .power_consumption => "power_consumption"
  | .power_consumption_calc => "power_consumption_calc"
  | .power_production => "power_production"
  | .power_storage => "power_storage"
  | .power_grid => "power_grid"
  | .power_charging_stations => "power_charging_stations"
  | .power_heating => "power_heating"
  | .power_appliances => "power_appliances"
  | .state_of_charge => "state_of_charge"
  | .self_sufficiency => "self_sufficiency"

def counterKey : CounterField → String
  | .consumers_total => "consumers_total_count"
  | .consumers_online => "consumers_online_count"
  | .producers_total => "producers_total_count"
  | .producers_online => "producers_online_count"
  | .storages_total => "storages_total_count"
  | .storages_online => "storages_online_count"
  | .heatings_total => "heatings_total_count"
  | .heatings_online => "heatings_online_count"
  | .charging_points_total => "charging_points_total_count"
  | .charging_points_online => "charging_points_online_count"
  | .grids_total => "grids_total_count"
  | .grids_online => "grids_online_count"

def allMetrics : List Metric :=
  [ .power_consumption, .power_consumption_calc, .power_production,
    .power_storage, .power_grid, .power_charging_stations, .power_heating,
    .power_appliances, .state_of_charge, .self_sufficiency ]

def allCounters : List CounterField :=
  [ .consumers_total, .consumers_online, .producers_total, .producers_online,
    .storages_total, .storages_online, .heatings_total, .heatings_online,
    .charging_points_total, .charging_points_online, .grids_total,
    .grids_online ]

inductive FieldTag where
  | metric (m : Metric)
  | counter (c : CounterField)
  deriving DecidableEq

/-- Which `EnergyFlow` field (if any) a JSON object key decodes into:
exact tag match first, then the case-insensitive fallback. -/
def fieldOfKey (k : String) : Option FieldTag :=
  match allMetrics.find? (fun m => metricKey m == k) with
  | some m => some (.metric m)
  | none =>
    match allCounters.find? (fun c => counterKey c == k) with
    | some c => some (.counter c)
    | none =>
      match allMetrics.find? (fun m => foldKey (metricKey m) == foldKey k) with
      | some m => some (.metric m)
      | none =>
        match allCounters.find? (fun c => foldKey (counterKey c) == foldKey k) with
        | some c => some (.counter c)
        | none => none

/-- The float64 value of a JSON number `m * 10 ^ e`. -/
def jnumToFloat (m : Int) (e : Int) : Float :=
  let f := Float.ofScientific m.natAbs (e < 0) e.natAbs
  if m < 0 then -f else f

/-- Decode one key of a `MetricValue` object (keys match the `value` and
`time` tags case-insensitively, like `encoding/json`).  `value` targets
`*float64`: `null` sets the pointer to nil, a number allocates; `time`
targets `time.Time`: a string is accepted (format validation not
modelled), `null` is a no-op. -/
def applyMVField (mv : MetricValue) (k : String) (j : Json) :
    Except String MetricValue :=
  if foldKey k = "value" then
    match j with
    | .null => .ok { mv with value := none }
    | .num m e _ => .ok { mv with value := some (jnumToFloat m e) }
    | _ => .error "cannot unmarshal into Go value of type float64"
  else if foldKey k = "time" then
    match j with
    | .null => .ok mv
    | .str s => .ok { mv with time := s }
    | _ => .error "cannot unmarshal into Go value of type time.Time"
  else .ok mv

def unmarshalMVFields : MetricValue → List (String × Json) →
    Except String MetricValue
  | mv, [] => .ok mv
  | mv, (k, j) :: rest =>
    match applyMVField mv k j with
    | .error e => .error e
    | .ok mv2 => unmarshalMVFields mv2 rest

def unmarshalMetricValue (mv : MetricValue) (j : Json) :
    Except String MetricValue :=
  match j with
  | .null => .ok mv
  | .obj kvs => unmarshalMVFields mv kvs
  | _ => .error "cannot unmarshal into Go value of type main.MetricValue"

/-- Decode a JSON value into a Go `int`: only plain integer literals are
accepted (`strconv.ParseInt` on the literal), `null` is a no-op. -/
def unmarshalIntField (cur : Int) (j : Json) : Except String Int :=
  match j with
  | .null => .ok cur
  | .num m _ intLit =>
    if intLit then .ok m
    else .error "cannot unmarshal number into Go value of type int"
  | _ => .error "cannot unmarshal into Go value of type int"

def applyField (acc : EnergyFlow) (t : FieldTag) (j : Json) :
    Except String EnergyFlow :=
  match t with
  | .metric m => (unmarshalMetricValue (getMetricField m acc) j).map
      (setMetricField acc m)
  | .counter c => (unmarshalIntField (getCounterField c acc) j).map
      (setCounterField acc c)

def zeroMetricValue : MetricValue := { value := none, time := "" }

/-- The zero value of `var flow EnergyFlow` that `json.Unmarshal` decodes
into (main.go line 70). -/
def zeroFlow : EnergyFlow :=
  { powerConsumption := zeroMetricValue
    powerConsumptionCalc := zeroMetricValue
    powerProduction := zeroMetricValue
    powerStorage := zeroMetricValue
    powerGrid := zeroMetricValue
    powerChargingstations := zeroMetricValue
    powerHeating := zeroMetricValue
    powerAppliances := zeroMetricValue
    stateOfCharge := zeroMetricValue
    selfSufficiency := zeroMetricValue
    consumersTotalCount := 0
    consumersOnlineCount := 0
    producersTotalCount := 0
    producersOnlineCount := 0
    storagesTotalCount := 0
    storagesOnlineCount := 0
    heatingTotalCount := 0
    heatingsOnlineCount := 0
    chargingPointsTotalCount := 0
    chargingPointsOnlineCount := 0
    girdsTotalCount := 0
    gridsOnlineCount := 0 }

def unmarshalFields : EnergyFlow → List (String × Json) →
    Except String EnergyFlow
  | acc, [] => .ok acc
  | acc, (k, j) :: rest =>
    match fieldOfKey k with
    | none => unmarshalFields acc rest
    | some t =>
      match applyField acc t j with
      | .error e => .error e
      | .ok acc2 => unmarshalFields acc2 rest

/-- `json.Unmarshal(bs, &flow)` after `bs` parsed to the value `j`:
an object decodes field by field, `null` leaves the zero value, anything
else is a type error. -/
def unmarshalFlow (j : Json) : Except String EnergyFlow :=
  match j with
  | .null => .ok zeroFlow
  | .obj kvs => unmarshalFields zeroFlow kvs
  | _ => .error "cannot unmarshal into Go value of type main.EnergyFlow"

/-! ## The fetcher (main.go lines 17-19 and 54-76)

The network is an explicit input: an `HttpVal` is what one round through
`http.DefaultClient.Do` plus `ioutil.ReadAll` yields — a transport
error, a body-read error, or a body (the HTTP status code is never
inspected by the source, so it is not modelled). -/

inductive HttpVal where
  | netErr (e : String)
  | readErr (e : String)
  | body (s : String)

/-! ### URL parsing (`net/url`, as used by `http.NewRequest`)

Modelled from `net/url.Parse` restricted to the URLs this program can
build (fixed `https://api.ntuity.io/...` scheme and host, the site
identifier embedded in the path): the fragment is cut at the first `#`
(and never sent in a request); the part before the fragment must be
free of ASCII control characters; the query is cut at the first `?` and
its percent escapes are not validated; percent escapes before the query
must be `%` followed by two hex digits (the fixed scheme/host prefix
contains no `%`, so validating the whole pre-query part coincides with
Go's path/host validation on every reachable input). -/

def ctlByte (c : Char) : Bool :=
  decide (c.toNat < 32) || decide (c.toNat == 127)

/-- Split at the first occurrence of `sep`: the part before it, and
(when present) the part after it. -/
def splitAtChar (sep : Char) : List Char → List Char × Option (List Char)
  | [] => ([], none)
  | c :: rest =>
    if c = sep then ([], some rest)
    else
      let p := splitAtChar sep rest
      (c :: p.1, p.2)

def isHexDigit (c : Char) : Bool :=
  c.isDigit || ('a' ≤ c && c ≤ 'f') || ('A' ≤ c && c ≤ 'F')

/-- Every `%` must be followed by two hex digits (`net/url.unescape`). -/
def validEscapes : List Char → Bool
  | [] => true
  | '%' :: a :: b :: rest => isHexDigit a && isHexDigit b && validEscapes rest
  | '%' :: _ => false
  | _ :: rest => validEscapes rest

/-- The parsed form of a request URL: the scheme/host/path part before
any query, the raw query (after the first `?`), and the fragment (after
the first `#`) — which is never sent on the wire. -/
structure ParsedURL where
  preQuery : String
  query : Option String
  fragment : Option String
  deriving DecidableEq

/-- `url.Parse`: `none` is the error return.  See the section comment
for what is validated where. -/
def parseURL (s : String) : Option ParsedURL :=
  match splitAtChar '#' s.data with
  | (pre, frag) =>
    if pre.any ctlByte then none
    else if (match frag with
        | none => true
        | some f => validEscapes f) = false then none
    else
      match splitAtChar '?' pre with
      | (pq, q) =>
        if validEscapes pq = false then none
        else some { preQuery := String.mk pq, query := q.map String.mk,
                    fragment := frag.map String.mk }

/-- Whether `url.Parse` (hence `http.NewRequest`) accepts the URL. -/
def urlValid (s : String) : Bool :=
  (parseURL s).isSome

structure HttpRequest where
  method : String
  url : ParsedURL
  headers : List (String × String)
  deriving DecidableEq

/-- Go canonicalizes header keys (`textproto`): letters at the start or
after a hyphen are uppercased, other letters lowercased. -/
def canonChars : Bool → List Char → List Char
  | _, [] => []
  | up, c :: rest =>
    (if up then c.toUpper else c.toLower) :: canonChars (c = '-') rest

def canonicalHeaderKey (s : String) : String :=
  String.mk (canonChars true s.data)

/-- `req.Header.Add(k, v)`. -/
def headerAdd (r : HttpRequest) (k v : String) : HttpRequest :=
  { r with headers := r.headers ++ [(canonicalHeaderKey k, v)] }

/-- `http.NewRequest("GET", siteURL, nil)`: `none` models the error
return, which the source discards (main.go line 55). -/
def newRequest (method url : String) : Option HttpRequest :=
  (parseURL url).map
    (fun u => { method := method, url := u, headers := [] })

/-- Site identifiers that embed into the URL as a plain path segment:
no control characters, `%`, `#` or `?`.  For these `url.Parse` accepts
the substituted URL and parses it to itself (no query or fragment is
split off). -/
def plainSiteId (site : String) : Bool :=
  site.data.all (fun c =>
    !ctlByte c && !(c == '%') && !(c == '#') && !(c == '?'))

/-- `.panicked` models the nil-pointer dereference that follows a failed
request construction, since the source writes `req, _ := ...` and then
immediately calls `req.Header.Add`. -/
inductive FetchResult where
  | panicked
  | completed (r : Except String EnergyFlow)

structure FetchTrace where
  requests : List HttpRequest
  result : FetchResult

/-- `retrieveEnergyFlow` (main.go lines 54-76): build the request, add
the `accept` and `Authorization` headers, perform the call, read the
body, `json.Unmarshal` it. -/
def retrieveEnergyFlow (siteURL apiKey : String) (net : HttpVal) :
    FetchTrace :=
  match newRequest "GET" siteURL with
  | none => { requests := [], result := .panicked }
  | some req0 =>
    let req1 := headerAdd req0 "accept" "application/json"
    let req2 := headerAdd req1 "Authorization" ("Bearer " ++ apiKey)
    { requests := [req2]
      result := .completed
        (match net with
        | .netErr e => .error e
        | .readErr e => .error e
        | .body s =>
          match parseJson s with
          | none => .error "invalid JSON"
          | some j => unmarshalFlow j) }

/-- `fmt.Sprintf(baseURL, *siteID)` with
`baseURL = "https://api.ntuity.io/v1/sites/%s/energy-flow/latest"`. -/
def siteURLFor (site : String) : String :=
  "https://api.ntuity.io/v1/sites/" ++ site ++ "/energy-flow/latest"

/-! ## The publisher loop (main.go lines 188-244) and `main` (249-268)

One loop iteration: call the fetcher; on error, log and `os.Exit(1)`
without touching any gauge; on success, perform the nine gauge writes
and sleep 60 seconds.  `LEvent` is the observable event alphabet of the
loop. -/

inductive LEvent where
  | fetch
  | write (n : Metric) (site : String) (v : Float)
  | sleep (secs : Nat)
  | logged (msg : String)
  | exit (code : Nat)

def isFetch : LEvent → Bool
  | .fetch => true
  | _ => false

def writeEvents (site : String) (flow : EnergyFlow) : List LEvent :=
  (publishWrites site flow).map (fun w => LEvent.write w.1 w.2.1 w.2.2)

/-- One iteration of the `for` loop, given the fetcher's outcome:
the events of the iteration, the gauge set after it, and whether the
loop continues. -/
def cycleStep (site : String) (g : GaugeSet)
    (r : Except String EnergyFlow) : List LEvent × GaugeSet × Bool :=
  match r with
  | .error e =>
    ([.fetch, .logged ("Failed to collect metrics: " ++ e), .exit 1], g, false)
  | .ok flow =>
    (.fetch :: (writeEvents site flow ++ [.sleep 60]),
     applyWrites g (publishWrites site flow), true)

/-- One full poll cycle including the fetcher: `none` when the fetcher
panicked. -/
def pollCycle (site apiKey : String) (g : GaugeSet) (net : HttpVal) :
    Option (List LEvent × GaugeSet × Bool) :=
  match (retrieveEnergyFlow (siteURLFor site) apiKey net).result with
  | .panicked => none
  | .completed r => some (cycleStep site g r)

/-- The loop run for `fuel` iterations starting at cycle index `i`, the
fetch outcomes given by the oracle `orc`. -/
def loopRun (site : String) (orc : Nat → Except String EnergyFlow) :
    GaugeSet → Nat → Nat → List LEvent × GaugeSet
  | g, _, 0 => ([], g)
  | g, i, fuel + 1 =>
    let step := cycleStep site g (orc i)
    if step.2.2 then
      let rest := loopRun site orc step.2.1 (i + 1) fuel
      (step.1 ++ rest.1, rest.2)
    else (step.1, step.2.1)

/-- The event trace of `fuel` all-successful cycles from index `i`: each
cycle is one fetch, then the nine writes, then exactly one 60-second
sleep — the first fetch is the very first event. -/
def successTrace (site : String) (flowOf : Nat → EnergyFlow) :
    Nat → Nat → List LEvent
  | _, 0 => []
  | i, fuel + 1 =>
    (LEvent.fetch :: (writeEvents site (flowOf i) ++ [.sleep 60])) ++
      successTrace site flowOf (i + 1) fuel

/-- Observable events of `main` before and including reaching the
listener. -/
inductive PEvent where
  | logMsg (s : String)
  | handle (path : String)
  | startLoop
  | bind (a : String)
  | exit (code : Nat)

/-- `main` (main.go lines 249-268) up to `http.ListenAndServe`: the site
check exits first; otherwise the `/metrics` handler is registered (not
yet bound), the listening message logged, and `startNtuityMetricsCollector`
either rejects an empty `NTUITY_API_KEY` (main.go lines 79-82, causing a
logged error and exit) or starts the loop, after which the listener is
bound. -/
def mainEvents (siteID apiKey addr : String) : List PEvent :=
  if siteID = "" then [.logMsg "No site ID given", .exit 1]
  else
    [.handle "/metrics", .logMsg ("Listening on " ++ addr)] ++
      (if apiKey = "" then
        [.logMsg "Failed to start metrics collector: no api key given", .exit 1]
      else [.startLoop, .bind addr])

/-! ## Concrete snapshots used by witnesses -/

/-- A snapshot whose `power_grid` reading is present (value 5). -/
def flowA : EnergyFlow :=
  { zeroFlow with powerGrid := { value := some 5, time := "2024-01-01T00:00:00Z" } }

/-- `flowB1` and `flowB2` agree on all nine published values but differ
in the raw `power_consumption`, a counter, and a timestamp. -/
def flowB1 : EnergyFlow :=
  { zeroFlow with
    powerGrid := { value := some 5, time := "2024-01-01T00:00:00Z" }
    stateOfCharge := { value := some 80, time := "2024-01-01T00:00:00Z" } }

def flowB2 : EnergyFlow :=
  { zeroFlow with
    powerGrid := { value := some 5, time := "2030-12-31T23:59:59Z" }
    stateOfCharge := { value := some 80, time := "2024-01-01T00:00:00Z" }
    powerConsumption := { value := some 7, time := "2024-01-01T00:00:00Z" }
    consumersTotalCount := 3
    girdsTotalCount := 11 }

/-- The thirteen decoded-but-never-published fields: the raw
`power_consumption` metric and the twelve counters. -/
structure Unpublished where
  powerConsumption : MetricValue
  consumersTotalCount : Int
  consumersOnlineCount : Int
  producersTotalCount : Int
  producersOnlineCount : Int
  storagesTotalCount : Int
  storagesOnlineCount : Int
  heatingTotalCount : Int
  heatingsOnlineCount : Int
  chargingPointsTotalCount : Int
  chargingPointsOnlineCount : Int
  girdsTotalCount : Int
  gridsOnlineCount : Int

/-- Replace exactly the thirteen unpublished fields of a snapshot. -/
def withUnpublished (f : EnergyFlow) (u : Unpublished) : EnergyFlow :=
  { f with
    powerConsumption := u.powerConsumption
    consumersTotalCount := u.consumersTotalCount
    consumersOnlineCount := u.consumersOnlineCount
    producersTotalCount := u.producersTotalCount
    producersOnlineCount := u.producersOnlineCount
    storagesTotalCount := u.storagesTotalCount
    storagesOnlineCount := u.storagesOnlineCount
    heatingTotalCount := u.heatingTotalCount
    heatingsOnlineCount := u.heatingsOnlineCount
    chargingPointsTotalCount := u.chargingPointsTotalCount
    chargingPointsOnlineCount := u.chargingPointsOnlineCount
    girdsTotalCount := u.girdsTotalCount
    gridsOnlineCount := u.gridsOnlineCount }

/-! ## Helper lemmas -/

theorem lookup_gset (g : GaugeSet) (n : Metric) (s : String) (v : Float)
    (n' : Metric) (s' : String) :
    lookupGauge (gset g n s v) n' s' =
      if n = n' ∧ s = s' then some v else lookupGauge g n' s' := by
  induction g with
  | nil => simp [gset, lookupGauge]
  | cons hd tl ih =>
    obtain ⟨n0, s0, v0⟩ := hd
    simp only [gset]
    by_cases h0 : n0 = n ∧ s0 = s
    · rw [if_pos h0]
      obtain ⟨rfl, rfl⟩ := h0
      simp only [lookupGauge]
      by_cases h1 : n0 = n' ∧ s0 = s' <;> simp [h1]
    · rw [if_neg h0]
      simp only [lookupGauge, ih]
      by_cases h1 : n0 = n' ∧ s0 = s' <;> by_cases h2 : n = n' ∧ s = s'
      · exact absurd ⟨h1.1.trans h2.1.symm, h1.2.trans h2.2.symm⟩ h0
      · simp [h1, h2]
      · simp [h1, h2]
      · simp [h1, h2]

/-! ## Claims -/

/-- C1: in a successful poll cycle, every one of the nine published
fields whose decoded snapshot value is present is copied exactly into
the corresponding gauge, labeled with the configured site identifier. -/
theorem present_value_sets_gauge_exactly (g : GaugeSet) (site : String)
    (flow : EnergyFlow) (m : Metric) (v : Float)
    (hm : published m = true)
    (hv : (getMetricField m flow).value = some v) :
    lookupGauge (cycleStep site g (.ok flow)).2.1 m site = some v := by
  cases m <;>
    simp_all [cycleStep, applyWrites, publishWrites, List.foldl_cons,
      List.foldl_nil, lookup_gset, getMetricField, orZero, published]

/-- C1 witness: a concrete cycle with `power_grid` present at 5. -/
theorem present_value_sets_gauge_exactly_witness :
    lookupGauge (cycleStep "X" initialGaugeSet (.ok flowA)).2.1
      .power_grid "X" = some 5 :=
  present_value_sets_gauge_exactly initialGaugeSet "X" flowA .power_grid 5
    rfl rfl

/-- C2: in a successful poll cycle, every published field reported
absent (null) resets the corresponding gauge to 0.0, whatever value the
gauge held before the cycle. -/
theorem absent_value_resets_gauge (g : GaugeSet) (site : String)
    (flow : EnergyFlow) (m : Metric)
    (hm : published m = true)
    (hv : (getMetricField m flow).value = none) :
    lookupGauge (cycleStep site g (.ok flow)).2.1 m site = some 0 := by
  cases m <;>
    simp_all [cycleStep, applyWrites, publishWrites, List.foldl_cons,
      List.foldl_nil, lookup_gset, getMetricField, orZero, published]

/-- C2 witness: a cycle sets `power_grid` to 5, the next snapshot
reports it absent, and the gauge resets to 0 rather than keeping 5. -/
theorem absent_value_resets_gauge_witness :
    lookupGauge (cycleStep "X" initialGaugeSet (.ok flowA)).2.1
        .power_grid "X" = some 5 ∧
    lookupGauge
        (cycleStep "X" (cycleStep "X" initialGaugeSet (.ok flowA)).2.1
          (.ok zeroFlow)).2.1 .power_grid "X" = some 0 :=
  ⟨rfl,
   absent_value_resets_gauge (cycleStep "X" initialGaugeSet (.ok flowA)).2.1
     "X" zeroFlow .power_grid rfl rfl⟩

/-- C3: a poll cycle whose fetch fails (network error, body-read error,
or JSON decode error) logs a message containing the error, exits with
the non-zero code 1, stops the loop, and performs no gauge write: the
gauge set after the cycle is exactly the one before it. -/
theorem fetch_error_fail_fast (site apiKey : String) (g : GaugeSet)
    (net : HttpVal) (e : String)
    (h : (retrieveEnergyFlow (siteURLFor site) apiKey net).result =
      .completed (.error e)) :
    ∃ evs, pollCycle site apiKey g net = some (evs, g, false) ∧
      LEvent.logged ("Failed to collect metrics: " ++ e) ∈ evs ∧
      (∃ p, "Failed to collect metrics: " ++ e = p ++ e) ∧
      LEvent.exit 1 ∈ evs ∧
      (∀ c, LEvent.exit c ∈ evs → c ≠ 0) ∧
      (∀ n s v, LEvent.write n s v ∉ evs) := by
  refine ⟨[.fetch, .logged ("Failed to collect metrics: " ++ e), .exit 1],
    ?_, ?_, ⟨"Failed to collect metrics: ", rfl⟩, ?_, ?_, ?_⟩
  · simp [pollCycle, h, cycleStep]
  · simp
  · simp
  · intro c hc
    simp at hc
    omega
  · intro n s v hw
    simp at hw

/-- C3 witness: a malformed JSON body (`"not json"`) makes the concrete
cycle stop the loop and leave the gauge set untouched. -/
theorem fetch_error_fail_fast_witness :
    (pollCycle "X" "k" initialGaugeSet (HttpVal.body "not json")).map
      (fun p => (p.2.1, p.2.2)) = some (initialGaugeSet, false) := by
  obtain ⟨evs, h1, h2, h3, h4, h5, h6⟩ :=
    fetch_error_fail_fast "X" "k" initialGaugeSet (.body "not json")
      "invalid JSON" rfl
  rw [h1]
  rfl

/-- C4: the gauge writes of a successful cycle are unchanged when the
twelve counters and the raw `power_consumption` field are replaced by
anything, and no write ever targets the `power_consumption` gauge. -/
theorem unpublished_fields_are_inert (site : String) (flow : EnergyFlow)
    (u : Unpublished) :
    publishWrites site (withUnpublished flow u) = publishWrites site flow ∧
    ∀ w ∈ publishWrites site flow, w.1 ≠ Metric.power_consumption := by
  refine ⟨rfl, ?_⟩
  intro w hw
  simp only [publishWrites, List.mem_cons, List.not_mem_nil, or_false] at hw
  rcases hw with rfl | rfl | rfl | rfl | rfl | rfl | rfl | rfl | rfl <;> simp

/-- C4 witness: the first write of a concrete cycle does not target the
`power_consumption` gauge. -/
theorem unpublished_fields_are_inert_witness :
    ((Metric.power_consumption_calc, "X", (0 : Float)) :
        Metric × String × Float).1 ≠ Metric.power_consumption :=
  (unpublished_fields_are_inert "X" flowA
      ⟨zeroMetricValue, 0, 0, 0, 0, 0, 0, 0, 0, 0, 0, 0, 0⟩).2
    (Metric.power_consumption_calc, "X", (0 : Float))
    (by simp [publishWrites, flowA, zeroFlow, zeroMetricValue, orZero])

/-- C10: two-run noninterference — two snapshots agreeing on the nine
published values (presence and number) produce identical gauge-write
sequences, whatever their timestamps, counters and raw
`power_consumption` field. -/
theorem publish_writes_noninterference (site : String)
    (flow flow' : EnergyFlow)
    (h : ∀ m, published m = true →
      (getMetricField m flow).value = (getMetricField m flow').value) :
    publishWrites site flow = publishWrites site flow' := by
  have h1 := h .power_consumption_calc rfl
  have h2 := h .power_production rfl
  have h3 := h .power_storage rfl
  have h4 := h .power_grid rfl
  have h5 := h .power_charging_stations rfl
  have h6 := h .power_heating rfl
  have h7 := h .power_appliances rfl
  have h8 := h .state_of_charge rfl
  have h9 := h .self_sufficiency rfl
  simp only [getMetricField] at h1 h2 h3 h4 h5 h6 h7 h8 h9
  simp [publishWrites, h1, h2, h3, h4, h5, h6, h7, h8, h9]

/-- C10 witness: two concrete snapshots differing in a timestamp, the
raw `power_consumption`, and two counters produce the same writes. -/
theorem publish_writes_noninterference_witness :
    publishWrites "X" flowB1 = publishWrites "X" flowB2 :=
  publish_writes_noninterference "X" flowB1 flowB2
    (by
      intro m hm
      cases m <;> first | rfl | exact absurd hm (by decide))

/-- C5 counterexample: before the first poll cycle the registry has no
children, so a scrape does not read 0.0 for a published gauge under the
site label — there is no series at all, contradicting the claim that
every gauge reads 0.0. -/
theorem scrape_before_first_cycle_counterexample :
    lookupGauge (scrapeSeries initialGaugeSet) Metric.power_production "X"
        = none ∧
    lookupGauge (scrapeSeries initialGaugeSet) Metric.power_production "X"
        ≠ some 0 := by
  constructor
  · rfl
  · intro h
    simp [scrapeSeries, initialGaugeSet, lookupGauge] at h

/-- C5 amended: a scrape before the first poll cycle succeeds but
returns an empty exposition — no series exists for any gauge — and the
site-labeled series of every published gauge exists (with some value)
only after the first successful cycle. -/
theorem scrape_before_first_cycle_empty :
    scrapeSeries initialGaugeSet = [] ∧
    ∀ site flow m, published m = true →
      ∃ v, lookupGauge (cycleStep site initialGaugeSet (.ok flow)).2.1
        m site = some v := by
  refine ⟨rfl, ?_⟩
  intro site flow m hm
  cases m <;>
    simp_all [cycleStep, applyWrites, publishWrites, List.foldl_cons,
      List.foldl_nil, lookup_gset, published]

/-- C5 amended witness: after one concrete successful cycle the
`power_grid` series for the site exists. -/
theorem scrape_before_first_cycle_empty_witness :
    (lookupGauge (cycleStep "X" initialGaugeSet (.ok zeroFlow)).2.1
      .power_grid "X").isSome = true := by
  obtain ⟨v, hv⟩ :=
    scrape_before_first_cycle_empty.2 "X" zeroFlow .power_grid rfl
  rw [hv]
  rfl

theorem splitAtChar_not_mem (sep : Char) (l : List Char) (h : sep ∉ l) :
    splitAtChar sep l = (l, none) := by
  induction l with
  | nil => rfl
  | cons c rest ih =>
    simp only [List.mem_cons, not_or] at h
    have hc : ¬(c = sep) := fun hc => h.1 hc.symm
    simp [splitAtChar, hc, ih h.2]

theorem validEscapes_no_pct (l : List Char) (h : '%' ∉ l) :
    validEscapes l = true := by
  induction l with
  | nil => rfl
  | cons c rest ih =>
    simp only [List.mem_cons, not_or] at h
    have hc : ¬(c = '%') := fun hc => h.1 hc.symm
    cases rest with
    | nil => simp [validEscapes, hc]
    | cons d rest2 => simp [validEscapes, hc, ih h.2]

/-- For a plain-path-segment site identifier, `url.Parse` accepts the
substituted URL and parses it to itself: no fragment, no query. -/
theorem parseURL_plain (site : String) (h : plainSiteId site = true) :
    parseURL (siteURLFor site) =
      some { preQuery := siteURLFor site, query := none, fragment := none } := by
  rw [plainSiteId, List.all_eq_true] at h
  have hdata : (siteURLFor site).data =
      "https://api.ntuity.io/v1/sites/".data ++
        (site.data ++ "/energy-flow/latest".data) := by
    simp [siteURLFor, String.data_append]
  have hsite : ∀ c ∈ site.data,
      ctlByte c = false ∧ c ≠ '%' ∧ c ≠ '#' ∧ c ≠ '?' := by
    intro c hc
    have := h c hc
    simp only [Bool.and_eq_true, Bool.not_eq_true'] at this
    refine ⟨this.1.1.1, ?_, ?_, ?_⟩
    · intro he; rw [he] at this; simp at this
    · intro he; rw [he] at this; simp at this
    · intro he; rw [he] at this; simp at this
  have hnohash : '#' ∉ (siteURLFor site).data := by
    rw [hdata]
    simp only [List.mem_append, not_or]
    refine ⟨by decide, ?_, by decide⟩
    intro hmem
    exact (hsite '#' hmem).2.2.1 rfl
  have hnoq : '?' ∉ (siteURLFor site).data := by
    rw [hdata]
    simp only [List.mem_append, not_or]
    refine ⟨by decide, ?_, by decide⟩
    intro hmem
    exact (hsite '?' hmem).2.2.2 rfl
  have hnopct : '%' ∉ (siteURLFor site).data := by
    rw [hdata]
    simp only [List.mem_append, not_or]
    refine ⟨by decide, ?_, by decide⟩
    intro hmem
    exact (hsite '%' hmem).2.1 rfl
  have hnoctl : (siteURLFor site).data.any ctlByte = false := by
    rw [hdata]
    simp only [List.any_append, Bool.or_eq_false_iff]
    refine ⟨by decide, ?_, by decide⟩
    rw [List.any_eq_false]
    intro c hc
    simp [(hsite c hc).1]
  rw [parseURL, splitAtChar_not_mem '#' _ hnohash]
  simp only [hnoctl, Bool.false_eq_true, if_false,
    splitAtChar_not_mem '?' _ hnoq, validEscapes_no_pct _ hnopct]
  rfl

/-- C7 counterexample: the claim fails outside plain site identifiers.
A control character (`"a\nb"`) or an invalid percent escape (`"a%zz"`)
makes the cycle panic with zero requests issued, and a fragment
character (`"a#b"`) makes the single GET target the fragment-truncated
URL instead of the substituted one. -/
theorem one_get_request_counterexample :
    (retrieveEnergyFlow (siteURLFor "a\nb") "k" (HttpVal.body "x")).requests
      = [] ∧
    (retrieveEnergyFlow (siteURLFor "a%zz") "k" (HttpVal.body "x")).requests
      = [] ∧
    ((retrieveEnergyFlow (siteURLFor "a#b") "k" (HttpVal.body "x")).requests.map
      (fun r => r.url.preQuery)) = ["https://api.ntuity.io/v1/sites/a"] ∧
    "https://api.ntuity.io/v1/sites/a" ≠ siteURLFor "a#b" := by
  refine ⟨rfl, rfl, rfl, ?_⟩
  decide

/-- C7 amended: for every site identifier that embeds as a plain path
segment (no control characters, `%`, `#`, `?`), each fetch issues
exactly one request: a GET whose URL is exactly the substituted
energy-flow URL (no query or fragment split off), carrying
`Accept: application/json` and `Authorization: Bearer <credential>`;
and every loop iteration performs exactly one fetch.  For other site
identifiers the fetch panics with no request or targets a truncated
URL (see the counterexample and C9). -/
theorem one_get_request_for_plain_site (site apiKey : String)
    (net : HttpVal) (h : plainSiteId site = true) :
    (retrieveEnergyFlow (siteURLFor site) apiKey net).requests =
      [{ method := "GET"
         url := { preQuery := "https://api.ntuity.io/v1/sites/" ++ site ++
                    "/energy-flow/latest"
                  query := none
                  fragment := none }
         headers := [("Accept", "application/json"),
                     ("Authorization", "Bearer " ++ apiKey)] }] ∧
    ∀ g r, ((cycleStep site g r).1.filter isFetch).length = 1 := by
  constructor
  · unfold retrieveEnergyFlow newRequest
    rw [parseURL_plain site h]
    rfl
  · intro g r
    cases r with
    | error e => simp [cycleStep, isFetch]
    | ok flow =>
      simp [cycleStep, isFetch, writeEvents, publishWrites, List.filter]

/-- C7 witness: the concrete request issued for site `"X"` and
credential `"k"`, and the single fetch of one concrete iteration. -/
theorem one_get_request_for_plain_site_witness :
    (retrieveEnergyFlow (siteURLFor "X") "k" (.body "x")).requests =
      [{ method := "GET"
         url := { preQuery := "https://api.ntuity.io/v1/sites/" ++ "X" ++
                    "/energy-flow/latest"
                  query := none
                  fragment := none }
         headers := [("Accept", "application/json"),
                     ("Authorization", "Bearer " ++ "k")] }] ∧
    ((cycleStep "X" initialGaugeSet (.ok zeroFlow)).1.filter
      isFetch).length = 1 :=
  ⟨(one_get_request_for_plain_site "X" "k" (.body "x") rfl).1,
   (one_get_request_for_plain_site "X" "k" (.body "x") rfl).2 initialGaugeSet
     (.ok zeroFlow)⟩

/-- C9: `retrieveEnergyFlow` is not total: the request-construction
error is discarded, so a site identifier containing a character invalid
in a URL makes the header write dereference a nil request — a panic with
no request issued — instead of returning an error. -/
theorem invalid_url_panics :
    ∃ site, urlValid (siteURLFor site) = false ∧
      ∀ apiKey net,
        (retrieveEnergyFlow (siteURLFor site) apiKey net).result =
            .panicked ∧
        (retrieveEnergyFlow (siteURLFor site) apiKey net).requests = [] :=
  ⟨"a\nb", rfl, fun _ _ => ⟨rfl, rfl⟩⟩

/-- C8: (startup) with an empty site identifier or an empty credential,
`main` logs an error and exits with code 1 and the listener is never
bound, so no scrape is served; (schedule) when every fetch succeeds the
loop's trace is, cycle by cycle, a fetch followed by the writes and then
exactly one sleep — the very first event is a fetch (no delay before
it), every pause lasts 60 seconds, and there is exactly one fetch per
cycle. -/
theorem startup_checks_and_schedule :
    (∀ siteID apiKey addr, siteID = "" ∨ apiKey = "" →
      (∀ a, PEvent.bind a ∉ mainEvents siteID apiKey addr) ∧
      PEvent.exit 1 ∈ mainEvents siteID apiKey addr ∧
      (∀ c, PEvent.exit c ∈ mainEvents siteID apiKey addr → c ≠ 0) ∧
      (PEvent.logMsg "No site ID given" ∈ mainEvents siteID apiKey addr ∨
        PEvent.logMsg "Failed to start metrics collector: no api key given"
          ∈ mainEvents siteID apiKey addr)) ∧
    (∀ site orc flowOf g i fuel, (∀ n, orc n = .ok (flowOf n)) →
      (loopRun site orc g i fuel).1 = successTrace site flowOf i fuel) ∧
    (∀ site flowOf i fuel,
      (successTrace site flowOf i (fuel + 1)).head? = some .fetch) ∧
    (∀ site flowOf i fuel s,
      LEvent.sleep s ∈ successTrace site flowOf i fuel → s = 60) := by
  refine ⟨?_, ?_, ?_, ?_⟩
  · intro siteID apiKey addr hempty
    by_cases hs : siteID = ""
    · refine ⟨?_, ?_, ?_, ?_⟩ <;> simp [mainEvents, hs]
    · have hk : apiKey = "" := hempty.resolve_left hs
      refine ⟨?_, ?_, ?_, ?_⟩ <;> simp [mainEvents, hs, hk]
  · intro site orc flowOf g i fuel horc
    induction fuel generalizing g i with
    | zero => simp [loopRun, successTrace]
    | succ fuel ih =>
      simp only [loopRun, successTrace, horc i, cycleStep]
      simp [ih]
  · intro site flowOf i fuel
    simp [successTrace]
  · intro site flowOf i fuel
    induction fuel generalizing i with
    | zero => simp [successTrace]
    | succ fuel ih =>
      intro s hmem
      rw [successTrace] at hmem
      rcases List.mem_append.1 hmem with hblock | hrest
      · rcases List.mem_cons.1 hblock with h1 | hblock2
        · cases h1
        · rcases List.mem_append.1 hblock2 with h2 | h3
          · exfalso
            simp only [writeEvents, List.mem_map] at h2
            obtain ⟨w, _, hw⟩ := h2
            cases hw
          · have h4 := List.mem_singleton.1 h3
            injection h4
      · exact ih (i + 1) s hrest

/-- C8 witness: the empty-site startup exits without binding, and a
concrete one-cycle all-success run matches the schedule trace. -/
theorem startup_checks_and_schedule_witness :
    PEvent.exit 1 ∈ mainEvents "" "k" ":8080" ∧
    PEvent.bind ":8080" ∉ mainEvents "" "k" ":8080" ∧
    (loopRun "X" (fun _ => Except.ok zeroFlow) initialGaugeSet 0 2).1 =
      successTrace "X" (fun _ => zeroFlow) 0 2 ∧
    (successTrace "X" (fun _ => zeroFlow) 0 2).head? = some .fetch :=
  ⟨(startup_checks_and_schedule.1 "" "k" ":8080" (Or.inl rfl)).2.1,
   (startup_checks_and_schedule.1 "" "k" ":8080" (Or.inl rfl)).1 ":8080",
   startup_checks_and_schedule.2.1 "X" (fun _ => Except.ok zeroFlow)
     (fun _ => zeroFlow) initialGaugeSet 0 2 (fun _ => rfl),
   startup_checks_and_schedule.2.2.1 "X" (fun _ => zeroFlow) 0 1⟩

/-- A key that decodes into metric field `m` matches its tag up to ASCII
case folding (`encoding/json`: exact match or case-insensitive). -/
theorem fieldOfKey_metric_fold (k : String) (m : Metric)
    (h : fieldOfKey k = some (.metric m)) :
    foldKey (metricKey m) = foldKey k := by
  unfold fieldOfKey at h
  cases hf1 : allMetrics.find? (fun m2 => metricKey m2 == k) with
  | some m0 =>
    rw [hf1] at h
    have hm0 : m0 = m := by
      injection h with h2
      injection h2
    subst hm0
    have hp := List.find?_some hf1
    rw [eq_of_beq hp]
  | none =>
    rw [hf1] at h
    cases hf2 : allCounters.find? (fun c => counterKey c == k) with
    | some c =>
      rw [hf2] at h
      injection h with h2
      cases h2
    | none =>
      rw [hf2] at h
      cases hf3 : allMetrics.find?
          (fun m2 => foldKey (metricKey m2) == foldKey k) with
      | some m0 =>
        rw [hf3] at h
        have hm0 : m0 = m := by
          injection h with h2
          injection h2
        subst hm0
        have hp := List.find?_some hf3
        exact eq_of_beq hp
      | none =>
        rw [hf3] at h
        cases hf4 : allCounters.find?
            (fun c => foldKey (counterKey c) == foldKey k) with
        | some c =>
          rw [hf4] at h
          injection h with h2
          cases h2
        | none =>
          rw [hf4] at h
          cases h

theorem getMetric_setMetric_ne (f : EnergyFlow) (m m' : Metric)
    (mv : MetricValue) (h : m' ≠ m) :
    getMetricField m (setMetricField f m' mv) = getMetricField m f := by
  cases m' <;> cases m <;> first | exact absurd rfl h | rfl

theorem getMetric_setCounter (f : EnergyFlow) (m : Metric)
    (c : CounterField) (n : Int) :
    getMetricField m (setCounterField f c n) = getMetricField m f := by
  cases c <;> cases m <;> rfl

theorem getMetric_applyField {acc acc' : EnergyFlow} {t : FieldTag}
    {j : Json} {m : Metric} (h : applyField acc t j = .ok acc')
    (hm : t ≠ .metric m) :
    getMetricField m acc' = getMetricField m acc := by
  cases t with
  | metric m0 =>
    have h2 : Except.map (setMetricField acc m0)
        (unmarshalMetricValue (getMetricField m0 acc) j) = .ok acc' := h
    cases hu : unmarshalMetricValue (getMetricField m0 acc) j with
    | error e =>
      rw [hu] at h2
      have h3 : (Except.error e : Except String EnergyFlow) = .ok acc' := h2
      cases h3
    | ok mv =>
      rw [hu] at h2
      have h3 : (Except.ok (setMetricField acc m0 mv) :
          Except String EnergyFlow) = .ok acc' := h2
      injection h3 with h4
      rw [← h4]
      refine getMetric_setMetric_ne acc m m0 mv ?_
      intro hmm
      exact hm (by rw [hmm])
  | counter c =>
    have h2 : Except.map (setCounterField acc c)
        (unmarshalIntField (getCounterField c acc) j) = .ok acc' := h
    cases hu : unmarshalIntField (getCounterField c acc) j with
    | error e =>
      rw [hu] at h2
      have h3 : (Except.error e : Except String EnergyFlow) = .ok acc' := h2
      cases h3
    | ok n =>
      rw [hu] at h2
      have h3 : (Except.ok (setCounterField acc c n) :
          Except String EnergyFlow) = .ok acc' := h2
      injection h3 with h4
      rw [← h4]
      exact getMetric_setCounter acc m c n

theorem getMetric_unmarshalFields (m : Metric) :
    ∀ (kvs : List (String × Json)) (acc flow : EnergyFlow),
      unmarshalFields acc kvs = .ok flow →
      foldKey (metricKey m) ∉ kvs.map (fun kv => foldKey kv.1) →
      getMetricField m flow = getMetricField m acc := by
  intro kvs
  induction kvs with
  | nil =>
    intro acc flow h _
    injection h with h2
    rw [h2]
  | cons kv rest ih =>
    intro acc flow h hk
    obtain ⟨k, j⟩ := kv
    simp only [List.map_cons, List.mem_cons, not_or] at hk
    rw [unmarshalFields] at h
    cases hf : fieldOfKey k with
    | none =>
      rw [hf] at h
      exact ih acc flow h hk.2
    | some t =>
      rw [hf] at h
      have h2 : (match applyField acc t j with
          | .error e => (.error e : Except String EnergyFlow)
          | .ok acc2 => unmarshalFields acc2 rest) = .ok flow := h
      cases ha : applyField acc t j with
      | error e =>
        rw [ha] at h2
        have h3 : (Except.error e : Except String EnergyFlow) = .ok flow := h2
        cases h3
      | ok acc1 =>
        rw [ha] at h2
        have h3 : unmarshalFields acc1 rest = .ok flow := h2
        rw [ih acc1 flow h3 hk.2]
        refine getMetric_applyField ha ?_
        intro ht
        rw [ht] at hf
        exact hk.1 (fieldOfKey_metric_fold k m hf)

theorem unmarshalFields_skip (k : String) (j : Json)
    (hk : fieldOfKey k = none) :
    ∀ (kvs1 : List (String × Json)) (acc : EnergyFlow)
      (kvs2 : List (String × Json)),
      unmarshalFields acc (kvs1 ++ (k, j) :: kvs2) =
        unmarshalFields acc (kvs1 ++ kvs2) := by
  intro kvs1
  induction kvs1 with
  | nil =>
    intro acc kvs2
    rw [List.nil_append, List.nil_append, unmarshalFields, hk]
  | cons kv rest ih =>
    intro acc kvs2
    obtain ⟨k0, j0⟩ := kv
    rw [List.cons_append, List.cons_append, unmarshalFields, unmarshalFields]
    cases fieldOfKey k0 with
    | none => exact ih acc kvs2
    | some t =>
      show (match applyField acc t j0 with
          | .error e => (.error e : Except String EnergyFlow)
          | .ok acc2 => unmarshalFields acc2 (rest ++ (k, j) :: kvs2)) =
        (match applyField acc t j0 with
          | .error e => (.error e : Except String EnergyFlow)
          | .ok acc2 => unmarshalFields acc2 (rest ++ kvs2))
      cases applyField acc t j0 with
      | error e => rfl
      | ok acc1 => exact ih acc1 kvs2

theorem getMetric_zeroFlow (m : Metric) :
    getMetricField m zeroFlow = zeroMetricValue := by
  cases m <;> rfl

/-- C6: the fetcher returns a fully decoded snapshot or an error, never
a partial one; a body that is not well-formed JSON yields a decode
error; a well-formed body decodes through `unmarshalFlow`, under which
a metric field none of whose tag's spellings (exact or ASCII-case-
insensitive, as `encoding/json` matches) occurs among the object's keys
is left absent (null), and a key matching no field at all is ignored
entirely. -/
theorem fetch_decode_total_or_error :
    (∀ url apiKey net r,
      (retrieveEnergyFlow url apiKey net).result = .completed r →
        (∃ e, r = .error e) ∨ (∃ flow, r = .ok flow)) ∧
    (∀ url apiKey s, urlValid url = true → parseJson s = none →
      (retrieveEnergyFlow url apiKey (.body s)).result =
        .completed (.error "invalid JSON")) ∧
    (∀ url apiKey s j, urlValid url = true → parseJson s = some j →
      (retrieveEnergyFlow url apiKey (.body s)).result =
        .completed (unmarshalFlow j)) ∧
    (∀ kvs flow, unmarshalFlow (.obj kvs) = .ok flow →
      ∀ m : Metric,
        foldKey (metricKey m) ∉ kvs.map (fun kv => foldKey kv.1) →
        (getMetricField m flow).value = none) ∧
    (∀ k j kvs1 kvs2, fieldOfKey k = none →
      unmarshalFlow (.obj (kvs1 ++ (k, j) :: kvs2)) =
        unmarshalFlow (.obj (kvs1 ++ kvs2))) := by
  refine ⟨?_, ?_, ?_, ?_, ?_⟩
  · intro url apiKey net r h
    cases r with
    | error e => exact Or.inl ⟨e, rfl⟩
    | ok flow => exact Or.inr ⟨flow, rfl⟩
  · intro url apiKey s hu hp
    rw [urlValid] at hu
    obtain ⟨u, hu2⟩ := Option.isSome_iff_exists.1 hu
    unfold retrieveEnergyFlow newRequest
    rw [hu2]
    simp only [Option.map_some', hp]
  · intro url apiKey s j hu hp
    rw [urlValid] at hu
    obtain ⟨u, hu2⟩ := Option.isSome_iff_exists.1 hu
    unfold retrieveEnergyFlow newRequest
    rw [hu2]
    simp only [Option.map_some', hp]
  · intro kvs flow h m hk
    have h2 : unmarshalFields zeroFlow kvs = .ok flow := h
    rw [getMetric_unmarshalFields m kvs zeroFlow flow h2 hk,
      getMetric_zeroFlow]
    rfl
  · intro k j kvs1 kvs2 hk
    exact unmarshalFields_skip k j hk kvs1 zeroFlow kvs2

/-- C6 witness: a concrete malformed body yields the decode error; the
empty object decodes with every metric field absent; and (fidelity of
the tag matching) a differently-cased key such as `POWER_GRID` is not
treated as unknown — it decodes into the `power_grid` field. -/
theorem fetch_decode_total_or_error_witness :
    (retrieveEnergyFlow (siteURLFor "X") "k" (.body "not json")).result =
      .completed (.error "invalid JSON") ∧
    (getMetricField .power_production zeroFlow).value = none ∧
    unmarshalFlow (.obj [("POWER_GRID", .obj [("VALUE", .num 5 0 true)])]) =
      .ok { zeroFlow with
            powerGrid := { value := some (jnumToFloat 5 0), time := "" } } :=
  ⟨fetch_decode_total_or_error.2.1 (siteURLFor "X") "k" "not json" rfl rfl,
   fetch_decode_total_or_error.2.2.2.1 [] zeroFlow rfl .power_production
     (by simp),
   rfl⟩

end NtuityCollector
